import Mathlib

/-!
Shallow embedding of the GameConnectionRust client (`src/src/lib.rs`): a
session client for a matchmaking server speaking JSON over HTTP.  JSON values
are modelled by an inductive type, the blocking HTTP transport by an oracle
function from requests to either a transport error or a decoded JSON value,
and every Rust `.unwrap()` panic by a dedicated `panicked` outcome.  Each
public method of `Connection` becomes a Lean function returning its result,
the updated connection, and the list of transport calls it performed.
-/

namespace GameConn

/-- JSON values as decoded by serde_json.  Numbers are modelled as integers
(the payloads of this protocol only ever use integral numbers); objects are
association lists with first-occurrence lookup. -/
inductive Json where
  | null : Json
  | bool : Bool → Json
  | num : Int → Json
  | str : String → Json
  | arr : List Json → Json
  | obj : List (String × Json) → Json

/-- Lookup of a key in a JSON object's field list (serde_json `Map::get`). -/
def jlookup (fs : List (String × Json)) (k : String) : Option Json :=
  match fs with
  | [] => none
  | (k', v) :: rest => if k' = k then some v else jlookup rest k

/-- serde_json `Value::as_object`. -/
def Json.as_object : Json → Option (List (String × Json))
  | .obj fs => some fs
  | _ => none

/-- serde_json `Value::as_array`. -/
def Json.as_array : Json → Option (List Json)
  | .arr xs => some xs
  | _ => none

/-- serde_json `Value::as_str`. -/
def Json.as_str : Json → Option String
  | .str s => some s
  | _ => none

/-- serde_json `Value::as_bool`. -/
def Json.as_bool : Json → Option Bool
  | .bool b => some b
  | _ => none

/-- serde_json `Value::as_i64`: some iff the number is an integer in i64
range. -/
def Json.as_i64 : Json → Option Int
  | .num n => if -9223372036854775808 ≤ n ∧ n < 9223372036854775808 then some n else none
  | _ => none

/-- serde_json `Value::as_u64`: some iff the number is an integer in u64
range. -/
def Json.as_u64 : Json → Option Nat
  | .num n => if 0 ≤ n ∧ n < 18446744073709551616 then some n.toNat else none
  | _ => none

/-- serde_json `Value::get` on an object (returns none on non-objects, where
the Rust caller's `.unwrap()` panics). -/
def Json.get (j : Json) (k : String) : Option Json :=
  match j with
  | .obj fs => jlookup fs k
  | _ => none

/-- `json.get(k).unwrap().as_str().unwrap()` chain, collapsed: none models a
panic of either unwrap. -/
def Json.getStr (j : Json) (k : String) : Option String :=
  (j.get k).bind Json.as_str

/-- `json.get(k).unwrap().as_u64().unwrap()` chain. -/
def Json.getU64 (j : Json) (k : String) : Option Nat :=
  (j.get k).bind Json.as_u64

/-- `json.get(k).unwrap().as_i64().unwrap()` chain. -/
def Json.getI64 (j : Json) (k : String) : Option Int :=
  (j.get k).bind Json.as_i64

/-- `json.get(k).unwrap().as_bool().unwrap()` chain. -/
def Json.getBool (j : Json) (k : String) : Option Bool :=
  (j.get k).bind Json.as_bool

/-- The structured server error (`struct Error` in the source): `id` is an
i32 in Rust, modelled as an `Int` kept in i32 range by `i64_to_i32`. -/
structure Error where
  id : Int
  description : Option String
  info : Option String

/-- Rust's truncating cast `as i32` applied to an i64 value: two's-complement
wrap into the i32 range. -/
def i64_to_i32 (n : Int) : Int :=
  (n + 2147483648) % 4294967296 - 2147483648

/-- `Error::from_json`: reads `id` (as i64, then cast to i32), `description`
and `info` from the error object.  Every field access unwraps in the source;
`none` models the panic on a missing or mistyped field. -/
def Error.from_json (json : Json) : Option Error :=
  match json.getI64 "id" with
  | none => none
  | some i =>
    match json.getStr "description" with
    | none => none
    | some d =>
      match json.getStr "info" with
      | none => none
      | some inf => some ⟨i64_to_i32 i, some d, some inf⟩

/-- The client-side lifecycle state (`enum State`). -/
inductive State where
  | Disconnected : String → State
  | Registration : State
  | Idle : State
  | Searching : State
  | Playing : State

/-- `State::from_id`: maps the server-reported numeric state code. -/
def State.from_id (state_id : Nat) : State :=
  match state_id with
  | 0 => State.Registration
  | 1 => State.Idle
  | 2 => State.Searching
  | 3 => State.Playing
  | _ => State.Disconnected "Unknown state id"

/-- `struct Player`: one player decoded from a server list. -/
structure Player where
  nickname : String
  id : Nat

/-- `struct RegPlayerInfo`: the identity bound at registration. -/
structure RegPlayerInfo where
  nickname : String
  id : Nat
  player_id : Nat

/-- Outcome of a fallible client call: a value, a returned error, or a Rust
panic (an aborted `.unwrap()`). -/
inductive Res (ε α : Type) where
  | ok : α → Res ε α
  | err : ε → Res ε α
  | panicked : Res ε α

/-- Whether an outcome is a returned error (as opposed to success or panic). -/
def Res.isErr {ε α : Type} : Res ε α → Bool
  | .err _ => true
  | _ => false

/-- Whether an outcome is a success. -/
def Res.isOk {ε α : Type} : Res ε α → Bool
  | .ok _ => true
  | _ => false

/-- A failure of the underlying HTTP transport (reqwest error). -/
structure TransportErr where
  msg : String

/-- The two kinds of error a client call returns (the source's
`Box<dyn std::error::Error>` holds either a reqwest error or an `Error`). -/
inductive ClientErr where
  | transport : TransportErr → ClientErr
  | remote : Error → ClientErr

/-- HTTP method of a transport call. -/
inductive Method where
  | GET : Method
  | POST : Method

/-- One transport call: method, full URL, query pairs and raw body. -/
structure Req where
  method : Method
  url : String
  query : List (String × String)
  body : String

/-- The transport oracle: what the server answers to each request (or a
transport failure).  Models the reqwest `Client` plus the network. -/
def Transport := Req → Except TransportErr Json

/-- `struct Connection` (the reqwest `Client` handle is modelled by the
`Transport` oracle passed to each operation). -/
structure Connection where
  state : State
  info : Option RegPlayerInfo
  base_url : String

/-- `Connection::new`. -/
def Connection.new (url : String) : Connection :=
  { state := State.Registration, info := none, base_url := url }

/-- `Connection::parse`, the envelope parser: `as_object().unwrap()` panics on
non-objects; a `success` key returns its value; otherwise `get("error")`
unwraps (panicking when absent) and `Error::from_json` decodes it. -/
def Connection.parse (resp : Json) : Res Error Json :=
  match resp.as_object with
  | none => .panicked
  | some fs =>
    match jlookup fs "success" with
    | some v => .ok v
    | none =>
      match jlookup fs "error" with
      | none => .panicked
      | some e =>
        match Error.from_json e with
        | none => .panicked
        | some er => .err er

/-- `Connection::get`: one GET round trip against `{base_url}/{command}`. -/
def Connection.get (c : Connection) (t : Transport) (command : String)
    (query : List (String × String)) (body : String) :
    Except TransportErr Json × List Req :=
  let req : Req := { method := Method.GET, url := c.base_url ++ "/" ++ command,
                     query := query, body := body }
  (t req, [req])

/-- `Connection::get_parsed`: GET then envelope parse, lifting both failure
kinds into `ClientErr`. -/
def Connection.get_parsed (c : Connection) (t : Transport) (command : String)
    (query : List (String × String)) (body : String) :
    Res ClientErr Json × List Req :=
  match c.get t command query body with
  | (.error e, calls) => (.err (.transport e), calls)
  | (.ok j, calls) =>
    match Connection.parse j with
    | .ok v => (.ok v, calls)
    | .err er => (.err (.remote er), calls)
    | .panicked => (.panicked, calls)

/-- `Connection::get_with_id`: prefixes the command with
`/{info.id}/` after unwrapping the optional identity (panicking, before any
transport call, when it is unset). -/
def Connection.get_with_id (c : Connection) (t : Transport) (command : String)
    (query : List (String × String)) (body : String) :
    Res ClientErr Json × List Req :=
  match c.info with
  | none => (.panicked, [])
  | some i =>
    match c.get t ("/" ++ toString i.id ++ "/" ++ command) query body with
    | (.error e, calls) => (.err (.transport e), calls)
    | (.ok j, calls) => (.ok j, calls)

/-- `Connection::get_parsed_with_id`. -/
def Connection.get_parsed_with_id (c : Connection) (t : Transport) (command : String)
    (query : List (String × String)) (body : String) :
    Res ClientErr Json × List Req :=
  match c.info with
  | none => (.panicked, [])
  | some i => c.get_parsed t ("/" ++ toString i.id ++ "/" ++ command) query body

/-- `Connection::post`: one POST round trip against `{base_url}/{command}`. -/
def Connection.post (c : Connection) (t : Transport) (command : String)
    (query : List (String × String)) (body : String) :
    Except TransportErr Json × List Req :=
  let req : Req := { method := Method.POST, url := c.base_url ++ "/" ++ command,
                     query := query, body := body }
  (t req, [req])

/-- `Connection::post_parsed`. -/
def Connection.post_parsed (c : Connection) (t : Transport) (command : String)
    (query : List (String × String)) (body : String) :
    Res ClientErr Json × List Req :=
  match c.post t command query body with
  | (.error e, calls) => (.err (.transport e), calls)
  | (.ok j, calls) =>
    match Connection.parse j with
    | .ok v => (.ok v, calls)
    | .err er => (.err (.remote er), calls)
    | .panicked => (.panicked, calls)

/-- `Connection::post_with_id`. -/
def Connection.post_with_id (c : Connection) (t : Transport) (command : String)
    (query : List (String × String)) (body : String) :
    Res ClientErr Json × List Req :=
  match c.info with
  | none => (.panicked, [])
  | some i =>
    match c.post t ("/" ++ toString i.id ++ "/" ++ command) query body with
    | (.error e, calls) => (.err (.transport e), calls)
    | (.ok j, calls) => (.ok j, calls)

/-- `Connection::post_parsed_with_id`. -/
def Connection.post_parsed_with_id (c : Connection) (t : Transport) (command : String)
    (query : List (String × String)) (body : String) :
    Res ClientErr Json × List Req :=
  match c.info with
  | none => (.panicked, [])
  | some i => c.post_parsed t ("/" ++ toString i.id ++ "/" ++ command) query body

/-- The shared shape of every mutating operation: the primitive round trip
either aborts early (the source's `?` operator, or a panic inside it) leaving
the connection unchanged, or its payload is handed to the operation's
decode-and-update continuation. -/
def runOp {α : Type} (c : Connection) (pr : Res ClientErr Json × List Req)
    (k : Json → Res ClientErr α × Connection) :
    Res ClientErr α × Connection × List Req :=
  match pr with
  | (.ok j, calls) => ((k j).1, (k j).2, calls)
  | (.err e, calls) => (.err e, c, calls)
  | (.panicked, calls) => (.panicked, c, calls)

/-- `Connection::get_error_description` (takes `&self`; never mutates). -/
def Connection.get_error_description (c : Connection) (t : Transport) (error_id : Int) :
    Res ClientErr String × List Req :=
  match c.get_parsed t "error_description" [("id", toString error_id)] "" with
  | (.err e, calls) => (.err e, calls)
  | (.panicked, calls) => (.panicked, calls)
  | (.ok j, calls) =>
    match j.getStr "description" with
    | none => (.panicked, calls)
    | some s => (.ok s, calls)

/-- Rust `str::find(':')` followed by slicing at the found byte index: splits
a character list at the FIRST colon; none models the panic when no colon
exists. -/
def splitFirstColon : List Char → Option (List Char × List Char)
  | [] => none
  | c :: rest =>
    if c = ':' then some ([], rest)
    else
      match splitFirstColon rest with
      | none => none
      | some (p, s) => some (c :: p, s)

/-- Rust `str::parse::<u64>`: an optional leading plus sign, then one or more
ASCII digits, and the value must fit in u64. -/
def parseU64 (s : String) : Option Nat :=
  let ds := match s.data with
    | '+' :: rest => rest
    | cs => cs
  if ds = [] then none
  else if ds.all Char.isDigit then
    let n := ds.foldl (fun a c => a * 10 + (c.toNat - 48)) 0
    if n < 18446744073709551616 then some n else none
  else none

/-- One `"<id>:<nickname>"` list entry, decoded exactly as the source's loop
body does: find the first colon, parse the prefix as u64, keep the suffix as
the nickname.  `none` models the panic of either unwrap. -/
def decodePlayer (s : String) : Option Player :=
  match splitFirstColon s.data with
  | none => none
  | some (pre, suf) =>
    match parseU64 (String.mk pre) with
    | none => none
    | some id => some { nickname := String.mk suf, id := id }

/-- The decoding loop shared by `get_players` and `get_requests`: each array
element must be a string and decode as a player. -/
def decodePlayerList : List Json → Option (List Player)
  | [] => some []
  | z :: rest =>
    match z.as_str with
    | none => none
    | some s =>
      match decodePlayer s with
      | none => none
      | some p =>
        match decodePlayerList rest with
        | none => none
        | some ps => some (p :: ps)

/-- The decoding loop of `get_messages`: each array element must be a
string. -/
def decodeStrings : List Json → Option (List String)
  | [] => some []
  | z :: rest =>
    match z.as_str with
    | none => none
    | some s =>
      match decodeStrings rest with
      | none => none
      | some ss => some (s :: ss)

/-- `Connection::get_players` (takes `&self`; never mutates). -/
def Connection.get_players (c : Connection) (t : Transport) :
    Res ClientErr (List Player) × List Req :=
  match c.get_parsed t "players" [] "" with
  | (.err e, calls) => (.err e, calls)
  | (.panicked, calls) => (.panicked, calls)
  | (.ok x, calls) =>
    match (x.get "players").bind Json.as_array with
    | none => (.panicked, calls)
    | some y =>
      match decodePlayerList y with
      | none => (.panicked, calls)
      | some res => (.ok res, calls)

/-- `Connection::get_nickname`: unwraps the optional identity (panic when
unset) and returns the stored nickname. -/
def Connection.get_nickname (c : Connection) : Res ClientErr String :=
  match c.info with
  | none => .panicked
  | some i => .ok i.nickname

/-- `Connection::get_state`: scoped GET `state`, decode the numeric code,
map it through `State::from_id` and unconditionally overwrite the stored
state (the source's `if let Disconnected` arm is empty, a silent no-op). -/
def Connection.get_state (c : Connection) (t : Transport) :
    Res ClientErr State × Connection × List Req :=
  runOp c (c.get_parsed_with_id t "state" [] "") fun j =>
    match j.getU64 "state" with
    | none => (.panicked, c)
    | some state_id =>
      let state := State.from_id state_id
      (.ok state, { c with state := state })

/-- `Connection::get_stored_state`: pure accessor. -/
def Connection.get_stored_state (c : Connection) : State :=
  c.state

/-- `Connection::register`: unscoped POST `register` with query
`name=nickname`; on success binds the identity from the response's
`player` object (nickname, id, player_id) and sets the state to Idle. -/
def Connection.register (c : Connection) (t : Transport) (nickname : String) :
    Res ClientErr Unit × Connection × List Req :=
  runOp c (c.post_parsed t "register" [("name", nickname)] "") fun resp =>
    match resp.get "player" with
    | none => (.panicked, c)
    | some pl =>
      match pl.getStr "nickname", pl.getU64 "id", pl.getU64 "player_id" with
      | some nick, some id, some player_id =>
        (.ok (), { c with info := some { nickname := nick, id := id, player_id := player_id },
                          state := State.Idle })
      | _, _, _ => (.panicked, c)

/-- `Connection::search`: scoped POST `search`; on success the state becomes
Searching. -/
def Connection.search (c : Connection) (t : Transport) :
    Res ClientErr Unit × Connection × List Req :=
  runOp c (c.post_parsed_with_id t "search" [] "") fun _ =>
    (.ok (), { c with state := State.Searching })

/-- `Connection::idle`: scoped POST `idle`; on success the state becomes
Idle. -/
def Connection.idle (c : Connection) (t : Transport) :
    Res ClientErr Unit × Connection × List Req :=
  runOp c (c.post_parsed_with_id t "idle" [] "") fun _ =>
    (.ok (), { c with state := State.Idle })

/-- `Connection::send_request`: scoped POST `requests` with query
`send_to={target}`; reads `in_game` from the payload and moves to Playing
exactly when it is true. -/
def Connection.send_request (c : Connection) (t : Transport) (send_to : Nat) :
    Res ClientErr Unit × Connection × List Req :=
  runOp c (c.post_parsed_with_id t "requests" [("send_to", toString send_to)] "") fun x =>
    match x.getBool "in_game" with
    | none => (.panicked, c)
    | some in_game =>
      if in_game then (.ok (), { c with state := State.Playing })
      else (.ok (), c)

/-- `Connection::get_requests`: scoped GET `requests`; decodes the
`requests` string list with the shared player-entry decoder.  Takes
`&mut self` in the source but never assigns. -/
def Connection.get_requests (c : Connection) (t : Transport) :
    Res ClientErr (List Player) × Connection × List Req :=
  runOp c (c.get_parsed_with_id t "requests" [] "") fun x =>
    match (x.get "requests").bind Json.as_array with
    | none => (.panicked, c)
    | some y =>
      match decodePlayerList y with
      | none => (.panicked, c)
      | some res => (.ok res, c)

/-- `Connection::send_message`: scoped POST `messages` with the raw message
as body; no state change. -/
def Connection.send_message (c : Connection) (t : Transport) (message : String) :
    Res ClientErr Unit × Connection × List Req :=
  runOp c (c.post_parsed_with_id t "messages" [] message) fun _ =>
    (.ok (), c)

/-- `Connection::get_messages`: scoped GET `messages`; decodes the string
list; no state change. -/
def Connection.get_messages (c : Connection) (t : Transport) :
    Res ClientErr (List String) × Connection × List Req :=
  runOp c (c.get_parsed_with_id t "messages" [] "") fun x =>
    match (x.get "messages").bind Json.as_array with
    | none => (.panicked, c)
    | some y =>
      match decodeStrings y with
      | none => (.panicked, c)
      | some res => (.ok res, c)

/-- `Connection::end_game`: scoped POST `end_game`; no state change. -/
def Connection.end_game (c : Connection) (t : Transport) :
    Res ClientErr Unit × Connection × List Req :=
  runOp c (c.post_parsed_with_id t "end_game" [] "") fun _ =>
    (.ok (), c)

/-- One execution step of the client: some mutating operation runs with some
transport oracle and some arguments, and the connection is replaced by the
connection component of the operation's result. -/
inductive Step : Connection → Connection → Prop where
  | register (c : Connection) (t : Transport) (n : String) :
      Step c (c.register t n).2.1
  | get_state (c : Connection) (t : Transport) :
      Step c (c.get_state t).2.1
  | search (c : Connection) (t : Transport) :
      Step c (c.search t).2.1
  | idle (c : Connection) (t : Transport) :
      Step c (c.idle t).2.1
  | send_request (c : Connection) (t : Transport) (n : Nat) :
      Step c (c.send_request t n).2.1
  | get_requests (c : Connection) (t : Transport) :
      Step c (c.get_requests t).2.1
  | send_message (c : Connection) (t : Transport) (m : String) :
      Step c (c.send_message t m).2.1
  | get_messages (c : Connection) (t : Transport) :
      Step c (c.get_messages t).2.1
  | end_game (c : Connection) (t : Transport) :
      Step c (c.end_game t).2.1

/-- A connection is reachable when some sequence of operations starting from
a freshly constructed client produces it. -/
def Reachable (c : Connection) : Prop :=
  ∃ url, Relation.ReflTransGen Step (Connection.new url) c

/-! ### Generic facts about the operation shape -/

theorem runOp_err_eq {α : Type} (c : Connection) (pr : Res ClientErr Json × List Req)
    (k : Json → Res ClientErr α × Connection) (e : ClientErr)
    (hk : ∀ j e', (k j).1 ≠ .err e')
    (h : (runOp c pr k).1 = .err e) : (runOp c pr k).2.1 = c := by
  rcases pr with ⟨r, l⟩
  rcases r with j | er | _
  · exact absurd h (hk j e)
  · rfl
  · simp [runOp] at h

theorem runOp_info_eq {α : Type} (c : Connection) (pr : Res ClientErr Json × List Req)
    (k : Json → Res ClientErr α × Connection)
    (hk : ∀ j, ((k j).2).info = c.info) :
    (runOp c pr k).2.1.info = c.info := by
  rcases pr with ⟨r, l⟩
  rcases r with j | er | _
  · exact hk j
  · rfl
  · rfl

theorem runOp_conn_cases {α : Type} (c : Connection) (pr : Res ClientErr Json × List Req)
    (k : Json → Res ClientErr α × Connection) :
    (runOp c pr k).2.1 = c ∨ ∃ j, (runOp c pr k).2.1 = (k j).2 := by
  rcases pr with ⟨r, l⟩
  rcases r with j | er | _
  · exact Or.inr ⟨j, rfl⟩
  · exact Or.inl rfl
  · exact Or.inl rfl

theorem runOp_ok_ex {α : Type} (c : Connection) (pr : Res ClientErr Json × List Req)
    (k : Json → Res ClientErr α × Connection) (a : α)
    (h : (runOp c pr k).1 = .ok a) :
    ∃ j, pr.1 = .ok j ∧ (runOp c pr k).2.1 = (k j).2 ∧ (k j).1 = .ok a := by
  rcases pr with ⟨r, l⟩
  rcases r with j | er | _
  · exact ⟨j, rfl, rfl, h⟩
  · simp [runOp] at h
  · simp [runOp] at h

/-! ### Unregistered clients: the scoped primitives panic before any call -/

theorem get_parsed_with_id_unregistered (c : Connection) (t : Transport)
    (cmd : String) (q : List (String × String)) (b : String)
    (h : c.info = none) :
    c.get_parsed_with_id t cmd q b = (.panicked, []) := by
  simp [Connection.get_parsed_with_id, h]

theorem post_parsed_with_id_unregistered (c : Connection) (t : Transport)
    (cmd : String) (q : List (String × String)) (b : String)
    (h : c.info = none) :
    c.post_parsed_with_id t cmd q b = (.panicked, []) := by
  simp [Connection.post_parsed_with_id, h]

/-! ### The scoped primitives only read `info` and `base_url` -/

theorem get_parsed_with_id_congr (c c' : Connection) (t : Transport)
    (cmd : String) (q : List (String × String)) (b : String)
    (hi : c'.info = c.info) (hb : c'.base_url = c.base_url) :
    c'.get_parsed_with_id t cmd q b = c.get_parsed_with_id t cmd q b := by
  simp only [Connection.get_parsed_with_id, Connection.get_parsed, Connection.get, hi, hb]

theorem post_parsed_with_id_congr (c c' : Connection) (t : Transport)
    (cmd : String) (q : List (String × String)) (b : String)
    (hi : c'.info = c.info) (hb : c'.base_url = c.base_url) :
    c'.post_parsed_with_id t cmd q b = c.post_parsed_with_id t cmd q b := by
  simp only [Connection.post_parsed_with_id, Connection.post_parsed, Connection.post, hi, hb]

/-! ### Success of the primitives under a fixed server response -/

theorem get_parsed_with_id_ok (c : Connection) (i : RegPlayerInfo) (t : Transport)
    (cmd : String) (q : List (String × String)) (b : String) (payload : Json)
    (hinfo : c.info = some i)
    (ht : ∀ r, t r = .ok (.obj [("success", payload)])) :
    c.get_parsed_with_id t cmd q b =
      (.ok payload,
       [{ method := Method.GET, url := c.base_url ++ "/" ++ ("/" ++ toString i.id ++ "/" ++ cmd),
          query := q, body := b }]) := by
  simp [Connection.get_parsed_with_id, Connection.get_parsed, Connection.get, hinfo, ht,
        Connection.parse, Json.as_object, jlookup]

theorem post_parsed_with_id_ok (c : Connection) (i : RegPlayerInfo) (t : Transport)
    (cmd : String) (q : List (String × String)) (b : String) (payload : Json)
    (hinfo : c.info = some i)
    (ht : ∀ r, t r = .ok (.obj [("success", payload)])) :
    c.post_parsed_with_id t cmd q b =
      (.ok payload,
       [{ method := Method.POST, url := c.base_url ++ "/" ++ ("/" ++ toString i.id ++ "/" ++ cmd),
          query := q, body := b }]) := by
  simp [Connection.post_parsed_with_id, Connection.post_parsed, Connection.post, hinfo, ht,
        Connection.parse, Json.as_object, jlookup]

theorem post_parsed_ok (c : Connection) (t : Transport)
    (cmd : String) (q : List (String × String)) (b : String) (payload : Json)
    (ht : ∀ r, t r = .ok (.obj [("success", payload)])) :
    c.post_parsed t cmd q b =
      (.ok payload,
       [{ method := Method.POST, url := c.base_url ++ "/" ++ cmd, query := q, body := b }]) := by
  simp [Connection.post_parsed, Connection.post, ht, Connection.parse, Json.as_object, jlookup]

/-! ### Per-operation facts: unregistered clients -/

theorem get_state_unregistered (c : Connection) (t : Transport) (h : c.info = none) :
    c.get_state t = (.panicked, c, []) := by
  unfold Connection.get_state
  rw [get_parsed_with_id_unregistered c t "state" [] "" h]
  rfl

theorem search_unregistered (c : Connection) (t : Transport) (h : c.info = none) :
    c.search t = (.panicked, c, []) := by
  unfold Connection.search
  rw [post_parsed_with_id_unregistered c t "search" [] "" h]
  rfl

theorem idle_unregistered (c : Connection) (t : Transport) (h : c.info = none) :
    c.idle t = (.panicked, c, []) := by
  unfold Connection.idle
  rw [post_parsed_with_id_unregistered c t "idle" [] "" h]
  rfl

theorem send_request_unregistered (c : Connection) (t : Transport) (n : Nat)
    (h : c.info = none) :
    c.send_request t n = (.panicked, c, []) := by
  unfold Connection.send_request
  rw [post_parsed_with_id_unregistered c t "requests" [("send_to", toString n)] "" h]
  rfl

theorem get_requests_unregistered (c : Connection) (t : Transport) (h : c.info = none) :
    c.get_requests t = (.panicked, c, []) := by
  unfold Connection.get_requests
  rw [get_parsed_with_id_unregistered c t "requests" [] "" h]
  rfl

theorem send_message_unregistered (c : Connection) (t : Transport) (m : String)
    (h : c.info = none) :
    c.send_message t m = (.panicked, c, []) := by
  unfold Connection.send_message
  rw [post_parsed_with_id_unregistered c t "messages" [] m h]
  rfl

theorem get_messages_unregistered (c : Connection) (t : Transport) (h : c.info = none) :
    c.get_messages t = (.panicked, c, []) := by
  unfold Connection.get_messages
  rw [get_parsed_with_id_unregistered c t "messages" [] "" h]
  rfl

theorem end_game_unregistered (c : Connection) (t : Transport) (h : c.info = none) :
    c.end_game t = (.panicked, c, []) := by
  unfold Connection.end_game
  rw [post_parsed_with_id_unregistered c t "end_game" [] "" h]
  rfl

/-! ### No operation except register ever writes `info` -/

theorem get_state_info_eq (c : Connection) (t : Transport) :
    (c.get_state t).2.1.info = c.info := by
  unfold Connection.get_state
  refine runOp_info_eq _ _ _ ?_
  intro j
  beta_reduce
  split <;> rfl

theorem search_info_eq (c : Connection) (t : Transport) :
    (c.search t).2.1.info = c.info := by
  unfold Connection.search
  exact runOp_info_eq _ _ _ fun j => rfl

theorem idle_info_eq (c : Connection) (t : Transport) :
    (c.idle t).2.1.info = c.info := by
  unfold Connection.idle
  exact runOp_info_eq _ _ _ fun j => rfl

theorem send_request_info_eq (c : Connection) (t : Transport) (n : Nat) :
    (c.send_request t n).2.1.info = c.info := by
  unfold Connection.send_request
  refine runOp_info_eq _ _ _ ?_
  intro j
  beta_reduce
  split
  · rfl
  · split <;> rfl

/-! ### The four operations that take `&mut self` but never assign -/

theorem get_requests_conn_eq (c : Connection) (t : Transport) :
    (c.get_requests t).2.1 = c := by
  unfold Connection.get_requests runOp
  split
  · beta_reduce
    split
    · rfl
    · split <;> rfl
  · rfl
  · rfl

theorem send_message_conn_eq (c : Connection) (t : Transport) (m : String) :
    (c.send_message t m).2.1 = c := by
  unfold Connection.send_message
  rcases runOp_conn_cases c (c.post_parsed_with_id t "messages" [] m) _ with h | ⟨j, h⟩ <;>
    exact h

theorem get_messages_conn_eq (c : Connection) (t : Transport) :
    (c.get_messages t).2.1 = c := by
  unfold Connection.get_messages runOp
  split
  · beta_reduce
    split
    · rfl
    · split <;> rfl
  · rfl
  · rfl

theorem end_game_conn_eq (c : Connection) (t : Transport) :
    (c.end_game t).2.1 = c := by
  unfold Connection.end_game
  rcases runOp_conn_cases c (c.post_parsed_with_id t "end_game" [] "") _ with h | ⟨j, h⟩ <;>
    exact h

/-! ### A returned error never mutates the connection -/

theorem register_err_eq (c : Connection) (t : Transport) (n : String) (e : ClientErr)
    (h : (c.register t n).1 = .err e) : (c.register t n).2.1 = c := by
  unfold Connection.register at h ⊢
  refine runOp_err_eq _ _ _ e ?_ h
  intro j e'
  beta_reduce
  split
  · simp
  · split <;> simp

theorem get_state_err_eq (c : Connection) (t : Transport) (e : ClientErr)
    (h : (c.get_state t).1 = .err e) : (c.get_state t).2.1 = c := by
  unfold Connection.get_state at h ⊢
  refine runOp_err_eq _ _ _ e ?_ h
  intro j e'
  beta_reduce
  split <;> simp

theorem search_err_eq (c : Connection) (t : Transport) (e : ClientErr)
    (h : (c.search t).1 = .err e) : (c.search t).2.1 = c := by
  unfold Connection.search at h ⊢
  exact runOp_err_eq _ _ _ e (fun j e' => by simp) h

theorem idle_err_eq (c : Connection) (t : Transport) (e : ClientErr)
    (h : (c.idle t).1 = .err e) : (c.idle t).2.1 = c := by
  unfold Connection.idle at h ⊢
  exact runOp_err_eq _ _ _ e (fun j e' => by simp) h

theorem send_request_err_eq (c : Connection) (t : Transport) (n : Nat) (e : ClientErr)
    (h : (c.send_request t n).1 = .err e) : (c.send_request t n).2.1 = c := by
  unfold Connection.send_request at h ⊢
  refine runOp_err_eq _ _ _ e ?_ h
  intro j e'
  beta_reduce
  split
  · simp
  · split <;> simp

/-! ### Characterizations of successful operations -/

theorem idle_ok_state (c : Connection) (t : Transport) (u : Unit)
    (h : (c.idle t).1 = .ok u) : (c.idle t).2.1.state = State.Idle := by
  unfold Connection.idle at h ⊢
  obtain ⟨j, hpr, hconn, hk⟩ := runOp_ok_ex _ _ _ _ h
  rw [hconn]

theorem search_ok_state (c : Connection) (t : Transport) (u : Unit)
    (h : (c.search t).1 = .ok u) : (c.search t).2.1.state = State.Searching := by
  unfold Connection.search at h ⊢
  obtain ⟨j, hpr, hconn, hk⟩ := runOp_ok_ex _ _ _ _ h
  rw [hconn]

theorem register_ok_state (c : Connection) (t : Transport) (n : String) (u : Unit)
    (h : (c.register t n).1 = .ok u) :
    (c.register t n).2.1.state = State.Idle ∧
      ∃ i, (c.register t n).2.1.info = some i := by
  unfold Connection.register at h ⊢
  obtain ⟨j, hpr, hconn, hk⟩ := runOp_ok_ex _ _ _ _ h
  rw [hconn]
  split at hk
  · simp at hk
  · split at hk
    · constructor
      · rfl
      · exact ⟨_, rfl⟩
    · simp at hk

theorem get_state_ok_char (c : Connection) (t : Transport) (s : State)
    (h : (c.get_state t).1 = .ok s) :
    ∃ j n, (c.get_parsed_with_id t "state" [] "").1 = .ok j ∧
      j.getU64 "state" = some n ∧ s = State.from_id n ∧
      (c.get_state t).2.1 = { c with state := s } := by
  unfold Connection.get_state at h ⊢
  obtain ⟨j, hpr, hconn, hk⟩ := runOp_ok_ex _ _ _ _ h
  refine ⟨j, ?_⟩
  split at hk
  · simp at hk
  · rename_i n hn
    refine ⟨n, hpr, hn, ?_, ?_⟩
    · simpa using hk.symm
    · rw [hconn]
      simp_all

theorem send_request_ok_char (c : Connection) (t : Transport) (m : Nat) (u : Unit)
    (h : (c.send_request t m).1 = .ok u) :
    ∃ j b, (c.post_parsed_with_id t "requests" [("send_to", toString m)] "").1 = .ok j ∧
      j.getBool "in_game" = some b ∧
      (c.send_request t m).2.1 = (if b then { c with state := State.Playing } else c) := by
  unfold Connection.send_request at h ⊢
  obtain ⟨j, hpr, hconn, hk⟩ := runOp_ok_ex _ _ _ _ h
  refine ⟨j, ?_⟩
  split at hk
  · simp at hk
  · rename_i b hb
    refine ⟨b, hpr, hb, ?_⟩
    rw [hconn, hb]
    cases b <;> simp

/-! ### Full computation of an operation under a fixed server response -/

theorem runOp_ok_pair {α : Type} (c : Connection) (j : Json) (l : List Req)
    (k : Json → Res ClientErr α × Connection) :
    runOp c (.ok j, l) k = ((k j).1, (k j).2, l) := rfl

theorem jlookup_head (k : String) (v : Json) (rest : List (String × Json)) :
    jlookup ((k, v) :: rest) k = some v := by
  unfold jlookup
  rw [if_pos rfl]

theorem jlookup_tail (k k' : String) (v : Json) (rest : List (String × Json))
    (h : ¬ k' = k) : jlookup ((k', v) :: rest) k = jlookup rest k := by
  show (if k' = k then some v else jlookup rest k) = jlookup rest k
  rw [if_neg h]

theorem as_u64_natCast (n : Nat) (hn : n < 18446744073709551616) :
    Json.as_u64 (Json.num (n : Int)) = some n := by
  have h2 : (n : Int) < 18446744073709551616 := by exact_mod_cast hn
  simp [Json.as_u64, Int.ofNat_nonneg, h2]

theorem get_state_run (c : Connection) (t : Transport) (j : Json) (l : List Req) (n : Nat)
    (hp : c.get_parsed_with_id t "state" [] "" = (.ok j, l))
    (hd : j.getU64 "state" = some n) :
    c.get_state t = (.ok (State.from_id n), { c with state := State.from_id n }, l) := by
  unfold Connection.get_state
  rw [hp, runOp_ok_pair]
  rw [hd]

theorem send_request_run (c : Connection) (t : Transport) (m : Nat) (j : Json)
    (l : List Req) (b : Bool)
    (hp : c.post_parsed_with_id t "requests" [("send_to", toString m)] "" = (.ok j, l))
    (hd : j.getBool "in_game" = some b) :
    c.send_request t m =
      (.ok (), (if b then { c with state := State.Playing } else c), l) := by
  unfold Connection.send_request
  rw [hp, runOp_ok_pair]
  rw [hd]
  cases b <;> rfl

theorem register_run (c : Connection) (t : Transport) (arg : String) (j pl : Json)
    (l : List Req) (nick : String) (id pid : Nat)
    (hp : c.post_parsed t "register" [("name", arg)] "" = (.ok j, l))
    (hpl : j.get "player" = some pl)
    (hnick : pl.getStr "nickname" = some nick)
    (hid : pl.getU64 "id" = some id)
    (hpid : pl.getU64 "player_id" = some pid) :
    c.register t arg =
      (.ok (), { c with info := some { nickname := nick, id := id, player_id := pid },
                        state := State.Idle }, l) := by
  unfold Connection.register
  rw [hp, runOp_ok_pair]
  simp only [hpl, hnick, hid, hpid]

theorem get_state_resp (c : Connection) (i : RegPlayerInfo) (t : Transport) (n : Nat)
    (hinfo : c.info = some i)
    (ht : ∀ r, t r = .ok (.obj [("success", .obj [("state", .num n)])]))
    (hn : n < 18446744073709551616) :
    c.get_state t =
      (.ok (State.from_id n), { c with state := State.from_id n },
       [{ method := Method.GET,
          url := c.base_url ++ "/" ++ ("/" ++ toString i.id ++ "/" ++ "state"),
          query := [], body := "" }]) := by
  refine get_state_run c t (.obj [("state", .num n)]) _ n
    (get_parsed_with_id_ok c i t "state" [] "" (.obj [("state", .num n)]) hinfo ht) ?_
  show (jlookup [("state", Json.num (n : Int))] "state").bind Json.as_u64 = some n
  rw [jlookup_head, Option.some_bind]
  exact as_u64_natCast n hn

theorem send_request_resp (c : Connection) (i : RegPlayerInfo) (t : Transport)
    (m : Nat) (b : Bool)
    (hinfo : c.info = some i)
    (ht : ∀ r, t r = .ok (.obj [("success", .obj [("in_game", .bool b)])])) :
    c.send_request t m =
      (.ok (), (if b then { c with state := State.Playing } else c),
       [{ method := Method.POST,
          url := c.base_url ++ "/" ++ ("/" ++ toString i.id ++ "/" ++ "requests"),
          query := [("send_to", toString m)], body := "" }]) := by
  refine send_request_run c t m (.obj [("in_game", .bool b)]) _ b
    (post_parsed_with_id_ok c i t "requests" [("send_to", toString m)] ""
      (.obj [("in_game", .bool b)]) hinfo ht) ?_
  show (jlookup [("in_game", Json.bool b)] "in_game").bind Json.as_bool = some b
  rw [jlookup_head, Option.some_bind]
  rfl

theorem register_resp (c : Connection) (t : Transport) (arg nick : String) (id pid : Nat)
    (ht : ∀ r, t r = .ok (.obj [("success",
      .obj [("player", .obj [("nickname", .str nick), ("id", .num id),
                             ("player_id", .num pid)])])]))
    (hid : id < 18446744073709551616) (hpid : pid < 18446744073709551616) :
    c.register t arg =
      (.ok (), { c with info := some { nickname := nick, id := id, player_id := pid },
                        state := State.Idle },
       [{ method := Method.POST, url := c.base_url ++ "/" ++ "register",
          query := [("name", arg)], body := "" }]) := by
  refine register_run c t arg
    (.obj [("player", .obj [("nickname", .str nick), ("id", .num id),
                            ("player_id", .num pid)])])
    (.obj [("nickname", .str nick), ("id", .num id), ("player_id", .num pid)])
    _ nick id pid
    (post_parsed_ok c t "register" [("name", arg)] "" _ ht) ?_ ?_ ?_ ?_
  · show jlookup [("player", Json.obj [("nickname", Json.str nick), ("id", Json.num (id : Int)),
        ("player_id", Json.num (pid : Int))])] "player" = _
    rw [jlookup_head]
  · show (jlookup [("nickname", Json.str nick), ("id", Json.num (id : Int)),
        ("player_id", Json.num (pid : Int))] "nickname").bind Json.as_str = some nick
    rw [jlookup_head, Option.some_bind]
    rfl
  · show (jlookup [("nickname", Json.str nick), ("id", Json.num (id : Int)),
        ("player_id", Json.num (pid : Int))] "id").bind Json.as_u64 = some id
    rw [jlookup_tail _ _ _ _ (by decide), jlookup_head, Option.some_bind]
    exact as_u64_natCast id hid
  · show (jlookup [("nickname", Json.str nick), ("id", Json.num (id : Int)),
        ("player_id", Json.num (pid : Int))] "player_id").bind Json.as_u64 = some pid
    rw [jlookup_tail _ _ _ _ (by decide), jlookup_tail _ _ _ _ (by decide),
        jlookup_head, Option.some_bind]
    exact as_u64_natCast pid hpid

/-! ### Envelope parser lemmas -/

theorem parse_not_object (j : Json) (h : j.as_object = none) :
    Connection.parse j = .panicked := by
  unfold Connection.parse
  rw [h]

theorem parse_success (fs : List (String × Json)) (v : Json)
    (h : jlookup fs "success" = some v) :
    Connection.parse (.obj fs) = .ok v := by
  show (match jlookup fs "success" with
    | some v => Res.ok v
    | none =>
      match jlookup fs "error" with
      | none => Res.panicked
      | some e =>
        match Error.from_json e with
        | none => Res.panicked
        | some er => Res.err er) = Res.ok v
  rw [h]

theorem parse_neither (fs : List (String × Json))
    (hs : jlookup fs "success" = none) (he : jlookup fs "error" = none) :
    Connection.parse (.obj fs) = .panicked := by
  show (match jlookup fs "success" with
    | some v => Res.ok v
    | none =>
      match jlookup fs "error" with
      | none => Res.panicked
      | some e =>
        match Error.from_json e with
        | none => Res.panicked
        | some er => Res.err er) = Res.panicked
  rw [hs, he]

theorem from_json_fields (e : Json) (i : Int) (d inf : String)
    (hi : e.getI64 "id" = some i) (hd : e.getStr "description" = some d)
    (hinf : e.getStr "info" = some inf) :
    Error.from_json e = some ⟨i64_to_i32 i, some d, some inf⟩ := by
  unfold Error.from_json
  rw [hi, hd, hinf]

theorem parse_error (fs : List (String × Json)) (e : Json) (er : Error)
    (hs : jlookup fs "success" = none) (he : jlookup fs "error" = some e)
    (hf : Error.from_json e = some er) :
    Connection.parse (.obj fs) = .err er := by
  show (match jlookup fs "success" with
    | some v => Res.ok v
    | none =>
      match jlookup fs "error" with
      | none => Res.panicked
      | some e =>
        match Error.from_json e with
        | none => Res.panicked
        | some er => Res.err er) = Res.err er
  rw [hs, he]
  show (match Error.from_json e with
    | none => Res.panicked
    | some er => Res.err er) = Res.err er
  rw [hf]

theorem parse_error_malformed (fs : List (String × Json)) (e : Json)
    (hs : jlookup fs "success" = none) (he : jlookup fs "error" = some e)
    (hf : Error.from_json e = none) :
    Connection.parse (.obj fs) = .panicked := by
  show (match jlookup fs "success" with
    | some v => Res.ok v
    | none =>
      match jlookup fs "error" with
      | none => Res.panicked
      | some e =>
        match Error.from_json e with
        | none => Res.panicked
        | some er => Res.err er) = Res.panicked
  rw [hs, he]
  show (match Error.from_json e with
    | none => Res.panicked
    | some er => Res.err er) = Res.panicked
  rw [hf]

/-! ### Register either leaves the connection alone or binds an identity -/

theorem register_conn_cases (c : Connection) (t : Transport) (n : String) :
    (c.register t n).2.1 = c ∨ ((c.register t n).2.1).info.isSome = true := by
  unfold Connection.register runOp
  split
  · beta_reduce
    split
    · exact Or.inl rfl
    · split
      · exact Or.inr rfl
      · exact Or.inl rfl
  · exact Or.inl rfl
  · exact Or.inl rfl

/-! ### The reachability invariant: unset identity forces Registration state -/

theorem step_preserves_unreg (b c : Connection) (hstep : Step b c)
    (ih : b.info = none → b.state = State.Registration)
    (hnone : c.info = none) : c.state = State.Registration := by
  cases hstep with
  | register t n =>
    rcases register_conn_cases b t n with hc | hs
    · rw [hc] at hnone ⊢
      exact ih hnone
    · rw [Option.isSome_iff_exists] at hs
      obtain ⟨i, hi⟩ := hs
      rw [hi] at hnone
      cases hnone
  | get_state t =>
    have h0 : b.info = none := by rw [← get_state_info_eq b t]; exact hnone
    rw [get_state_unregistered b t h0]
    exact ih h0
  | search t =>
    have h0 : b.info = none := by rw [← search_info_eq b t]; exact hnone
    rw [search_unregistered b t h0]
    exact ih h0
  | idle t =>
    have h0 : b.info = none := by rw [← idle_info_eq b t]; exact hnone
    rw [idle_unregistered b t h0]
    exact ih h0
  | send_request t m =>
    have h0 : b.info = none := by rw [← send_request_info_eq b t m]; exact hnone
    rw [send_request_unregistered b t m h0]
    exact ih h0
  | get_requests t =>
    rw [get_requests_conn_eq b t] at hnone ⊢
    exact ih hnone
  | send_message t m =>
    rw [send_message_conn_eq b t m] at hnone ⊢
    exact ih hnone
  | get_messages t =>
    rw [get_messages_conn_eq b t] at hnone ⊢
    exact ih hnone
  | end_game t =>
    rw [end_game_conn_eq b t] at hnone ⊢
    exact ih hnone

/-! ### Player-entry decoding lemmas -/

theorem splitFirstColon_append (pre suf : List Char) (h : ':' ∉ pre) :
    splitFirstColon (pre ++ ':' :: suf) = some (pre, suf) := by
  induction pre with
  | nil =>
    show (if ':' = ':' then some (([] : List Char), suf)
          else match splitFirstColon suf with
            | none => none
            | some (p, s) => some (':' :: p, s)) = some ([], suf)
    rw [if_pos rfl]
  | cons a as ih =>
    have ha : ¬ a = ':' := fun hc => h (hc ▸ List.mem_cons_self a as)
    have has : ':' ∉ as := fun hm => h (List.mem_cons_of_mem a hm)
    show (if a = ':' then some (([] : List Char), as ++ ':' :: suf)
          else match splitFirstColon (as ++ ':' :: suf) with
            | none => none
            | some (p, s) => some (a :: p, s)) = some (a :: as, suf)
    rw [if_neg ha, ih has]

theorem splitFirstColon_none (s : List Char) (h : ':' ∉ s) :
    splitFirstColon s = none := by
  induction s with
  | nil => rfl
  | cons a as ih =>
    have ha : ¬ a = ':' := fun hc => h (hc ▸ List.mem_cons_self a as)
    have has : ':' ∉ as := fun hm => h (List.mem_cons_of_mem a hm)
    show (if a = ':' then some (([] : List Char), as)
          else match splitFirstColon as with
            | none => none
            | some (p, s) => some (a :: p, s)) = none
    rw [if_neg ha, ih has]

theorem decodePlayer_split (pre suf : List Char) (id : Nat) (h : ':' ∉ pre)
    (hid : parseU64 (String.mk pre) = some id) :
    decodePlayer (String.mk (pre ++ ':' :: suf)) = some ⟨String.mk suf, id⟩ := by
  unfold decodePlayer
  rw [show (String.mk (pre ++ ':' :: suf)).data = pre ++ ':' :: suf from rfl,
      splitFirstColon_append pre suf h]
  show (match parseU64 (String.mk pre) with
    | none => (none : Option Player)
    | some id => some ⟨String.mk suf, id⟩) = _
  rw [hid]

theorem decodePlayer_no_colon (s : String) (h : ':' ∉ s.data) :
    decodePlayer s = none := by
  unfold decodePlayer
  rw [splitFirstColon_none s.data h]

theorem decodePlayer_bad_id (pre suf : List Char) (h : ':' ∉ pre)
    (hid : parseU64 (String.mk pre) = none) :
    decodePlayer (String.mk (pre ++ ':' :: suf)) = none := by
  unfold decodePlayer
  rw [show (String.mk (pre ++ ':' :: suf)).data = pre ++ ':' :: suf from rfl,
      splitFirstColon_append pre suf h]
  show (match parseU64 (String.mk pre) with
    | none => (none : Option Player)
    | some id => some ⟨String.mk suf, id⟩) = _
  rw [hid]

/-! ### The calls an operation performs -/

theorem runOp_calls {α : Type} (c : Connection) (pr : Res ClientErr Json × List Req)
    (k : Json → Res ClientErr α × Connection) :
    (runOp c pr k).2.2 = pr.2 := by
  rcases pr with ⟨r, l⟩
  rcases r with j | e | _ <;> rfl

theorem get_parsed_calls (c : Connection) (t : Transport) (cmd : String)
    (q : List (String × String)) (b : String) :
    (c.get_parsed t cmd q b).2 = (c.get t cmd q b).2 := by
  unfold Connection.get_parsed
  split
  · rename_i e calls heq
    rw [heq]
  · rename_i j calls heq
    split <;> rw [heq]

theorem post_parsed_calls (c : Connection) (t : Transport) (cmd : String)
    (q : List (String × String)) (b : String) :
    (c.post_parsed t cmd q b).2 = (c.post t cmd q b).2 := by
  unfold Connection.post_parsed
  split
  · rename_i e calls heq
    rw [heq]
  · rename_i j calls heq
    split <;> rw [heq]

theorem get_parsed_with_id_calls (c : Connection) (i : RegPlayerInfo) (t : Transport)
    (cmd : String) (q : List (String × String)) (b : String)
    (hinfo : c.info = some i) :
    (c.get_parsed_with_id t cmd q b).2 =
      [{ method := Method.GET,
         url := c.base_url ++ "/" ++ ("/" ++ toString i.id ++ "/" ++ cmd),
         query := q, body := b }] := by
  unfold Connection.get_parsed_with_id
  rw [hinfo]
  show (c.get_parsed t ("/" ++ toString i.id ++ "/" ++ cmd) q b).2 = _
  rw [get_parsed_calls]
  rfl

theorem post_parsed_with_id_calls (c : Connection) (i : RegPlayerInfo) (t : Transport)
    (cmd : String) (q : List (String × String)) (b : String)
    (hinfo : c.info = some i) :
    (c.post_parsed_with_id t cmd q b).2 =
      [{ method := Method.POST,
         url := c.base_url ++ "/" ++ ("/" ++ toString i.id ++ "/" ++ cmd),
         query := q, body := b }] := by
  unfold Connection.post_parsed_with_id
  rw [hinfo]
  show (c.post_parsed t ("/" ++ toString i.id ++ "/" ++ cmd) q b).2 = _
  rw [post_parsed_calls]
  rfl

/-- The URL that the nested `format!` calls build: the scoped command carries
a leading slash, and `get`/`post` insert another, so the server id is
separated from the base URL by a double slash. -/
theorem url_norm (b s cmd : String) :
    b ++ "/" ++ ("/" ++ s ++ "/" ++ cmd) = b ++ "//" ++ s ++ "/" ++ cmd := by
  simp only [String.append_assoc]
  rw [show ("/" ++ ("/" ++ (s ++ ("/" ++ cmd))) : String) =
        "//" ++ (s ++ ("/" ++ cmd)) from by rw [← String.append_assoc]; rfl]

/-! ## Claim C1: the envelope parser -/

/-- Counterexample to C1 as stated.  The claim says that a response that is
not an object (or lacks both keys, or has malformed error fields) fails with
a protocol error and that the parser never panics; the code instead panics
(`as_object().unwrap()`), so the outcome is `panicked`, which is not a
returned error.  Moreover an error id beyond i32 range is truncated by the
`as i32` cast rather than carried exactly. -/
theorem C1_counterexample :
    Connection.parse (.str "x") = Res.panicked ∧
    (Res.panicked : Res Error Json).isErr = false ∧
    Connection.parse (.obj [("error", .obj [("id", .num 2147483648),
      ("description", .str "d"), ("info", .str "i")])]) =
      Res.err { id := -2147483648, description := some "d", info := some "i" } ∧
    (-2147483648 : Int) ≠ 2147483648 :=
  ⟨rfl, rfl, rfl, by decide⟩

/-- C1 (amended): for a decoded response that is an object with a `success`
key, `Connection::parse` returns the success value unchanged; for an object
without `success` but with an `error` object holding an integer `id` (in i64
range), a string `description` and a string `info`, it returns a structured
error carrying the description and info exactly and the id truncated to i32
by the `as i32` cast; for every other shape — a non-object response, an
object with neither key, or an error object with a missing or mistyped
field — the parser panics on an `unwrap` instead of returning a protocol
error. -/
theorem C1_parse_envelope :
    (∀ fs v, jlookup fs "success" = some v →
      Connection.parse (.obj fs) = .ok v) ∧
    (∀ fs e i d inf, jlookup fs "success" = none → jlookup fs "error" = some e →
      e.getI64 "id" = some i → e.getStr "description" = some d →
      e.getStr "info" = some inf →
      Connection.parse (.obj fs) =
        .err { id := i64_to_i32 i, description := some d, info := some inf }) ∧
    (∀ j, j.as_object = none → Connection.parse j = .panicked) ∧
    (∀ fs, jlookup fs "success" = none → jlookup fs "error" = none →
      Connection.parse (.obj fs) = .panicked) ∧
    (∀ fs e, jlookup fs "success" = none → jlookup fs "error" = some e →
      Error.from_json e = none → Connection.parse (.obj fs) = .panicked) := by
  refine ⟨parse_success, ?_, parse_not_object, parse_neither, parse_error_malformed⟩
  intro fs e i d inf hs he hi hd hinf
  exact parse_error fs e _ hs he (from_json_fields e i d inf hi hd hinf)

/-- Witness for C1: the three parser behaviors at concrete envelopes. -/
theorem C1_parse_envelope_witness :
    Connection.parse (.obj [("success", .num 7)]) = .ok (.num 7) ∧
    Connection.parse (.obj [("error", .obj [("id", .num 3),
      ("description", .str "bad"), ("info", .str "x")])]) =
      .err { id := i64_to_i32 3, description := some "bad", info := some "x" } ∧
    Connection.parse (.obj [("other", .null)]) = .panicked :=
  ⟨C1_parse_envelope.1 _ _ rfl,
   C1_parse_envelope.2.1 _ _ 3 "bad" "x" rfl rfl rfl rfl rfl,
   C1_parse_envelope.2.2.2.1 _ rfl rfl⟩

/-! ## Claim C2: operations before registration -/

/-- Transport oracle used by the C2 counterexample (never actually reached:
the operation panics before calling it). -/
def tC2 : Transport := fun _ => .ok (.obj [("success", .null)])

/-- Counterexample to C2 as stated.  On a freshly constructed client (the
Identity unset), `get_state` does not fail with a `NotRegistered` error — no
such error exists in the code; it panics on `self.info.as_ref().unwrap()`
(outcome `panicked`, not an error), though indeed before any transport
call. -/
theorem C2_counterexample :
    ((Connection.new "http://h").get_state tC2).1 = Res.panicked ∧
    Res.isErr ((Connection.new "http://h").get_state tC2).1 = false ∧
    ((Connection.new "http://h").get_state tC2).2.2 = [] :=
  ⟨rfl, rfl, rfl⟩

/-- C2 (amended): every session-scoped domain operation invoked while the
Identity is unset panics (the `unwrap` on the optional identity) before
performing any transport call, leaving the connection unchanged and the call
list empty; it does not return a `NotRegistered` precondition error. -/
theorem C2_unregistered_panics (c : Connection) (t : Transport)
    (h : c.info = none) :
    c.get_state t = (.panicked, c, []) ∧
    c.search t = (.panicked, c, []) ∧
    c.idle t = (.panicked, c, []) ∧
    (∀ n, c.send_request t n = (.panicked, c, [])) ∧
    c.get_requests t = (.panicked, c, []) ∧
    (∀ m, c.send_message t m = (.panicked, c, [])) ∧
    c.get_messages t = (.panicked, c, []) ∧
    c.end_game t = (.panicked, c, []) :=
  ⟨get_state_unregistered c t h, search_unregistered c t h, idle_unregistered c t h,
   fun n => send_request_unregistered c t n h, get_requests_unregistered c t h,
   fun m => send_message_unregistered c t m h, get_messages_unregistered c t h,
   end_game_unregistered c t h⟩

/-- Witness for C2 at a freshly constructed client. -/
theorem C2_unregistered_panics_witness :
    (Connection.new "http://h").get_state tC2 = (.panicked, Connection.new "http://h", []) ∧
    (Connection.new "http://h").search tC2 = (.panicked, Connection.new "http://h", []) ∧
    (Connection.new "http://h").idle tC2 = (.panicked, Connection.new "http://h", []) ∧
    (Connection.new "http://h").send_request tC2 9 = (.panicked, Connection.new "http://h", []) ∧
    (Connection.new "http://h").get_requests tC2 = (.panicked, Connection.new "http://h", []) ∧
    (Connection.new "http://h").send_message tC2 "hi" = (.panicked, Connection.new "http://h", []) ∧
    (Connection.new "http://h").get_messages tC2 = (.panicked, Connection.new "http://h", []) ∧
    (Connection.new "http://h").end_game tC2 = (.panicked, Connection.new "http://h", []) := by
  obtain ⟨h1, h2, h3, h4, h5, h6, h7, h8⟩ :=
    C2_unregistered_panics (Connection.new "http://h") tC2 rfl
  exact ⟨h1, h2, h3, h4 9, h5, h6 "hi", h7, h8⟩

/-! ## Claim C3: the identity-iff-Registration invariant -/

/-- Transport oracle answering a successful registration for the C3 trace. -/
def tRegC3 : Transport := fun _ => .ok (.obj [("success", .obj [("player",
  .obj [("nickname", .str "alice"), ("id", .num 7), ("player_id", .num 42)])])])

/-- Transport oracle reporting numeric state code 0 for the C3 trace. -/
def tState0C3 : Transport := fun _ => .ok (.obj [("success", .obj [("state", .num 0)])])

/-- The connection reached by: new, successful register, then a get_state
query in which the server reports state code 0. -/
def connC3 : Connection :=
  ((((Connection.new "http://h").register tRegC3 "alice").2.1).get_state tState0C3).2.1

/-- Counterexample to C3 as stated.  `connC3` is reachable by successful
operations, its stored state is `Registration` (the server reported code 0),
yet its Identity is still bound — so "Identity is None iff state is
Registration" fails in the right-to-left direction. -/
theorem C3_counterexample :
    Reachable connC3 ∧ connC3.state = State.Registration ∧
    connC3.info = some { nickname := "alice", id := 7, player_id := 42 } ∧
    ¬ (connC3.info = none ↔ connC3.state = State.Registration) := by
  refine ⟨⟨"http://h", ?_⟩, rfl, rfl, ?_⟩
  · exact Relation.ReflTransGen.tail
      (Relation.ReflTransGen.tail Relation.ReflTransGen.refl
        (Step.register _ tRegC3 "alice"))
      (Step.get_state _ tState0C3)
  · intro hiff
    exact Option.noConfusion
      (show (some ({ nickname := "alice", id := 7, player_id := 42 } : RegPlayerInfo) :
          Option RegPlayerInfo) = none from hiff.2 rfl)

/-- C3 (amended): in every reachable client state, if the Identity is unset
then the stored state is `Registration`.  The converse direction of the
original claim is false (see the counterexample): after registration a
`get_state` answering code 0 stores `Registration` while the Identity stays
bound. -/
theorem C3_identity_invariant (c : Connection) (h : Reachable c)
    (hnone : c.info = none) : c.state = State.Registration := by
  obtain ⟨url, hr⟩ := h
  revert hnone
  induction hr with
  | refl => intro _; rfl
  | tail h1 h2 ih => intro hnone; exact step_preserves_unreg _ _ h2 ih hnone

/-- Witness for C3 at the freshly constructed client. -/
theorem C3_identity_invariant_witness :
    (Connection.new "http://h").state = State.Registration :=
  C3_identity_invariant (Connection.new "http://h")
    ⟨"http://h", Relation.ReflTransGen.refl⟩ rfl

/-! ## Claim C4: returned errors never mutate the connection -/

/-- C4: for every domain operation, every execution in which the operation
returns an error (transport or remote — the only errors the code ever
returns) leaves the connection, and hence its cached `state` and Identity
`info`, exactly as it was; state changes only follow full success. -/
theorem C4_error_no_mutation (c : Connection) (t : Transport) :
    (∀ n e, (c.register t n).1 = .err e → (c.register t n).2.1 = c) ∧
    (∀ e, (c.get_state t).1 = .err e → (c.get_state t).2.1 = c) ∧
    (∀ e, (c.search t).1 = .err e → (c.search t).2.1 = c) ∧
    (∀ e, (c.idle t).1 = .err e → (c.idle t).2.1 = c) ∧
    (∀ n e, (c.send_request t n).1 = .err e → (c.send_request t n).2.1 = c) ∧
    (∀ e, (c.get_requests t).1 = .err e → (c.get_requests t).2.1 = c) ∧
    (∀ m e, (c.send_message t m).1 = .err e → (c.send_message t m).2.1 = c) ∧
    (∀ e, (c.get_messages t).1 = .err e → (c.get_messages t).2.1 = c) ∧
    (∀ e, (c.end_game t).1 = .err e → (c.end_game t).2.1 = c) :=
  ⟨fun n e h => register_err_eq c t n e h,
   fun e h => get_state_err_eq c t e h,
   fun e h => search_err_eq c t e h,
   fun e h => idle_err_eq c t e h,
   fun n e h => send_request_err_eq c t n e h,
   fun _ _ => get_requests_conn_eq c t,
   fun m _ _ => send_message_conn_eq c t m,
   fun _ _ => get_messages_conn_eq c t,
   fun _ _ => end_game_conn_eq c t⟩

/-- A registered connection used by several witnesses. -/
def connReg : Connection :=
  { state := State.Idle, info := some { nickname := "n", id := 7, player_id := 42 },
    base_url := "http://h" }

/-- A transport that always fails at the HTTP layer. -/
def tDownC4 : Transport := fun _ => .error { msg := "down" }

/-- Witness for C4: a transport failure during register, get_state and idle
leaves the registered connection untouched. -/
theorem C4_error_no_mutation_witness :
    (connReg.register tDownC4 "a").2.1 = connReg ∧
    (connReg.get_state tDownC4).2.1 = connReg ∧
    (connReg.idle tDownC4).2.1 = connReg := by
  obtain ⟨h1, h2, _, h4, _⟩ := C4_error_no_mutation connReg tDownC4
  exact ⟨h1 "a" (.transport { msg := "down" }) rfl,
         h2 (.transport { msg := "down" }) rfl,
         h4 (.transport { msg := "down" }) rfl⟩

/-! ## Claim C5: get_state overwrites with the mapped code -/

/-- C5: a successful `get_state` against a server that reports numeric code
`n` returns `State::from_id n` and unconditionally overwrites the stored
state with it; the mapping sends 0 to Registration, 1 to Idle, 2 to
Searching, 3 to Playing, and every other code to Disconnected with the
non-empty reason "Unknown state id" — without failing. -/
theorem C5_get_state_mapping (c : Connection) (i : RegPlayerInfo) (t : Transport)
    (n : Nat)
    (hinfo : c.info = some i)
    (ht : ∀ r, t r = .ok (.obj [("success", .obj [("state", .num n)])]))
    (hn : n < 18446744073709551616) :
    (c.get_state t).1 = .ok (State.from_id n) ∧
    (c.get_state t).2.1.state = State.from_id n ∧
    State.from_id 0 = State.Registration ∧ State.from_id 1 = State.Idle ∧
    State.from_id 2 = State.Searching ∧ State.from_id 3 = State.Playing ∧
    (∀ m, 4 ≤ m → State.from_id m = State.Disconnected "Unknown state id") ∧
    "Unknown state id" ≠ "" := by
  have h := get_state_resp c i t n hinfo ht hn
  rw [h]
  refine ⟨rfl, rfl, rfl, rfl, rfl, rfl, ?_, by decide⟩
  intro m hm
  rcases m with _ | _ | _ | _ | m
  · omega
  · omega
  · omega
  · omega
  · rfl

/-- Transport reporting state code 2 (Searching). -/
def tState2C5 : Transport := fun _ => .ok (.obj [("success", .obj [("state", .num 2)])])

/-- Transport reporting the unrecognized state code 99. -/
def tState99C5 : Transport := fun _ => .ok (.obj [("success", .obj [("state", .num 99)])])

/-- Witness for C5: code 2 stores Searching; the unrecognized code 99 stores
Disconnected with a non-empty reason and still succeeds. -/
theorem C5_get_state_mapping_witness :
    (connReg.get_state tState2C5).2.1.state = State.Searching ∧
    (connReg.get_state tState99C5).1 = .ok (State.Disconnected "Unknown state id") ∧
    (connReg.get_state tState99C5).2.1.state = State.Disconnected "Unknown state id" := by
  have h2 := C5_get_state_mapping connReg { nickname := "n", id := 7, player_id := 42 }
    tState2C5 2 rfl (fun r => rfl) (by decide)
  have h99 := C5_get_state_mapping connReg { nickname := "n", id := 7, player_id := 42 }
    tState99C5 99 rfl (fun r => rfl) (by decide)
  exact ⟨h2.2.1, h99.1, h99.2.1⟩

/-! ## Claim C6: the scoped request URL -/

/-- Transport used by the C6 counterexample and witness. -/
def tC6 : Transport := fun _ => .ok (.obj [("success", .obj [("state", .num 1)])])

/-- Counterexample to C6 as stated.  The session-scoped `state` request of a
client with base URL `http://h` and server id 7 is addressed to
`http://h//7/state` — with a double slash — not to the claimed
`http://h/7/state`. -/
theorem C6_counterexample :
    (connReg.get_state tC6).2.2.map Req.url = ["http://h//7/state"] ∧
    ("http://h//7/state" : String) ≠ "http://h/7/state" :=
  ⟨rfl, by decide⟩

/-- C6 (amended): every session-scoped request is addressed to
`{baseUrl}//{serverId}/{command}` (the nested `format!` calls produce a
double slash), where `serverId` is the Identity's server-assigned `id`
bound at registration — never the `player_id`. -/
theorem C6_scoped_urls (c : Connection) (i : RegPlayerInfo) (t : Transport)
    (hinfo : c.info = some i) :
    (c.get_state t).2.2.map Req.url =
      [c.base_url ++ "//" ++ toString i.id ++ "/" ++ "state"] ∧
    (c.search t).2.2.map Req.url =
      [c.base_url ++ "//" ++ toString i.id ++ "/" ++ "search"] ∧
    (c.idle t).2.2.map Req.url =
      [c.base_url ++ "//" ++ toString i.id ++ "/" ++ "idle"] ∧
    (∀ n, (c.send_request t n).2.2.map Req.url =
      [c.base_url ++ "//" ++ toString i.id ++ "/" ++ "requests"]) ∧
    (c.get_requests t).2.2.map Req.url =
      [c.base_url ++ "//" ++ toString i.id ++ "/" ++ "requests"] ∧
    (∀ m, (c.send_message t m).2.2.map Req.url =
      [c.base_url ++ "//" ++ toString i.id ++ "/" ++ "messages"]) ∧
    (c.get_messages t).2.2.map Req.url =
      [c.base_url ++ "//" ++ toString i.id ++ "/" ++ "messages"] ∧
    (c.end_game t).2.2.map Req.url =
      [c.base_url ++ "//" ++ toString i.id ++ "/" ++ "end_game"] := by
  refine ⟨?_, ?_, ?_, fun n => ?_, ?_, fun m => ?_, ?_, ?_⟩
  · unfold Connection.get_state
    rw [runOp_calls, get_parsed_with_id_calls c i t "state" [] "" hinfo]
    show [c.base_url ++ "/" ++ ("/" ++ toString i.id ++ "/" ++ "state")] = _
    rw [url_norm]
  · unfold Connection.search
    rw [runOp_calls, post_parsed_with_id_calls c i t "search" [] "" hinfo]
    show [c.base_url ++ "/" ++ ("/" ++ toString i.id ++ "/" ++ "search")] = _
    rw [url_norm]
  · unfold Connection.idle
    rw [runOp_calls, post_parsed_with_id_calls c i t "idle" [] "" hinfo]
    show [c.base_url ++ "/" ++ ("/" ++ toString i.id ++ "/" ++ "idle")] = _
    rw [url_norm]
  · unfold Connection.send_request
    rw [runOp_calls,
        post_parsed_with_id_calls c i t "requests" [("send_to", toString n)] "" hinfo]
    show [c.base_url ++ "/" ++ ("/" ++ toString i.id ++ "/" ++ "requests")] = _
    rw [url_norm]
  · unfold Connection.get_requests
    rw [runOp_calls, get_parsed_with_id_calls c i t "requests" [] "" hinfo]
    show [c.base_url ++ "/" ++ ("/" ++ toString i.id ++ "/" ++ "requests")] = _
    rw [url_norm]
  · unfold Connection.send_message
    rw [runOp_calls, post_parsed_with_id_calls c i t "messages" [] m hinfo]
    show [c.base_url ++ "/" ++ ("/" ++ toString i.id ++ "/" ++ "messages")] = _
    rw [url_norm]
  · unfold Connection.get_messages
    rw [runOp_calls, get_parsed_with_id_calls c i t "messages" [] "" hinfo]
    show [c.base_url ++ "/" ++ ("/" ++ toString i.id ++ "/" ++ "messages")] = _
    rw [url_norm]
  · unfold Connection.end_game
    rw [runOp_calls, post_parsed_with_id_calls c i t "end_game" [] "" hinfo]
    show [c.base_url ++ "/" ++ ("/" ++ toString i.id ++ "/" ++ "end_game")] = _
    rw [url_norm]

/-- Witness for C6: on the registered connection (server id 7, player id 42)
the scoped URLs use 7, and the route built from the player id would differ. -/
theorem C6_scoped_urls_witness :
    (connReg.get_state tC6).2.2.map Req.url = ["http://h//7/state"] ∧
    (connReg.end_game tC6).2.2.map Req.url = ["http://h//7/end_game"] ∧
    ("http://h//7/state" : String) ≠ "http://h//42/state" := by
  have h := C6_scoped_urls connReg { nickname := "n", id := 7, player_id := 42 } tC6 rfl
  exact ⟨h.1, h.2.2.2.2.2.2.2, by decide⟩

/-! ## Claim C7: send_request transitions to Playing iff in_game -/

/-- C7: a successful `send_request` whose response payload carries
`in_game = b` succeeds, stores `Playing` exactly when `b` is true, and when
`b` is false leaves the connection (in particular its state) unchanged. -/
theorem C7_send_request_in_game (c : Connection) (i : RegPlayerInfo) (t : Transport)
    (m : Nat) (b : Bool)
    (hinfo : c.info = some i)
    (ht : ∀ r, t r = .ok (.obj [("success", .obj [("in_game", .bool b)])])) :
    (c.send_request t m).1 = .ok () ∧
    (c.send_request t m).2.1.state = (if b then State.Playing else c.state) ∧
    (b = false → (c.send_request t m).2.1 = c) := by
  have h := send_request_resp c i t m b hinfo ht
  rw [h]
  cases b
  · exact ⟨rfl, rfl, fun _ => rfl⟩
  · exact ⟨rfl, rfl, fun hb => by cases hb⟩

/-- Transport answering `in_game = true`. -/
def tTrueC7 : Transport := fun _ => .ok (.obj [("success", .obj [("in_game", .bool true)])])

/-- Transport answering `in_game = false`. -/
def tFalseC7 : Transport := fun _ => .ok (.obj [("success", .obj [("in_game", .bool false)])])

/-- Witness for C7 on the registered (Idle) connection: `in_game = true`
moves to Playing, `in_game = false` leaves the connection unchanged. -/
theorem C7_send_request_in_game_witness :
    (connReg.send_request tTrueC7 9).1 = .ok () ∧
    (connReg.send_request tTrueC7 9).2.1.state = State.Playing ∧
    (connReg.send_request tFalseC7 9).2.1 = connReg := by
  have htrue := C7_send_request_in_game connReg
    { nickname := "n", id := 7, player_id := 42 } tTrueC7 9 true rfl (fun r => rfl)
  have hfalse := C7_send_request_in_game connReg
    { nickname := "n", id := 7, player_id := 42 } tFalseC7 9 false rfl (fun r => rfl)
  exact ⟨htrue.1, htrue.2.1, hfalse.2.2 rfl⟩

/-! ## Claim C8: player-list entry decoding -/

/-- Transport answering the spec's well-formed player list. -/
def tPlayersOkC8 : Transport := fun _ => .ok (.obj [("success", .obj [("players",
  .arr [.str "3:bob", .str "17:carol:extra"])])])

/-- Transport answering a player list whose entry has a non-numeric id. -/
def tPlayersBadC8 : Transport := fun _ => .ok (.obj [("success", .obj [("players",
  .arr [.str "notanid:x"])])])

/-- Transport answering the same well-formed list under the `requests` key. -/
def tRequestsOkC8 : Transport := fun _ => .ok (.obj [("success", .obj [("requests",
  .arr [.str "3:bob", .str "17:carol:extra"])])])

/-- Counterexample to C8 as stated.  Decoding the list `["notanid:x"]` does
not fail with a malformed-entry protocol error: the `parse().unwrap()` on the
non-numeric prefix panics, so `get_players` ends in `panicked`, which is not
a returned error. -/
theorem C8_counterexample :
    ((Connection.new "http://h").get_players tPlayersBadC8).1 = Res.panicked ∧
    Res.isErr ((Connection.new "http://h").get_players tPlayersBadC8).1 = false :=
  ⟨rfl, rfl⟩

/-- C8 (amended): a list entry containing a colon is split at the FIRST colon
only — the prefix is parsed as the unsigned id and everything after the first
colon (further colons included) becomes the nickname; an entry with no colon,
or whose prefix does not parse as a u64, makes decoding panic on an `unwrap`
(modelled by `none`/`panicked`) rather than failing with a malformed-entry
protocol error.  Concretely, `get_players` decodes `["3:bob","17:carol:extra"]`
to players (3, "bob") and (17, "carol:extra"), and `get_requests` decodes the
same list identically. -/
theorem C8_player_entry_decoding :
    (∀ pre suf id, ':' ∉ pre → parseU64 (String.mk pre) = some id →
      decodePlayer (String.mk (pre ++ ':' :: suf)) =
        some { nickname := String.mk suf, id := id }) ∧
    (∀ s : String, ':' ∉ s.data → decodePlayer s = none) ∧
    (∀ pre suf, ':' ∉ pre → parseU64 (String.mk pre) = none →
      decodePlayer (String.mk (pre ++ ':' :: suf)) = none) ∧
    ((Connection.new "http://h").get_players tPlayersOkC8).1 =
      .ok [{ nickname := "bob", id := 3 }, { nickname := "carol:extra", id := 17 }] ∧
    (connReg.get_requests tRequestsOkC8).1 =
      .ok [{ nickname := "bob", id := 3 }, { nickname := "carol:extra", id := 17 }] :=
  ⟨decodePlayer_split, decodePlayer_no_colon, decodePlayer_bad_id, rfl, rfl⟩

/-- Witness for C8: the split, no-colon and bad-prefix behaviors at the
spec's concrete entries. -/
theorem C8_player_entry_decoding_witness :
    decodePlayer "17:carol:extra" = some { nickname := "carol:extra", id := 17 } ∧
    decodePlayer "bob" = none ∧
    decodePlayer "notanid:x" = none := by
  refine ⟨?_, ?_, ?_⟩
  · exact C8_player_entry_decoding.1 "17".data "carol:extra".data 17 (by decide) rfl
  · exact C8_player_entry_decoding.2.1 "bob" (by decide)
  · exact C8_player_entry_decoding.2.2.1 "notanid".data "x".data (by decide) rfl

/-! ## Claim C9: idempotence of repeated successful operations -/

/-- C9: two successive successful `idle` calls each leave the stored state
`Idle`; and repeating any state-changing operation (search, register,
get_state, send_request — against the same transport, with the same
argument) after a success stores the same state again, so no repetition
diverges. -/
theorem C9_repeat_idempotent (c : Connection) (t t2 : Transport) :
    (∀ u u2, (c.idle t).1 = .ok u → ((c.idle t).2.1.idle t2).1 = .ok u2 →
      (c.idle t).2.1.state = State.Idle ∧
      ((c.idle t).2.1.idle t2).2.1.state = State.Idle) ∧
    (∀ u u2, (c.search t).1 = .ok u → ((c.search t).2.1.search t2).1 = .ok u2 →
      ((c.search t).2.1.search t2).2.1.state = (c.search t).2.1.state) ∧
    (∀ n u u2, (c.register t n).1 = .ok u →
      ((c.register t n).2.1.register t2 n).1 = .ok u2 →
      ((c.register t n).2.1.register t2 n).2.1.state = (c.register t n).2.1.state) ∧
    (∀ s s2, (c.get_state t).1 = .ok s →
      ((c.get_state t).2.1.get_state t).1 = .ok s2 →
      ((c.get_state t).2.1.get_state t).2.1.state = (c.get_state t).2.1.state) ∧
    (∀ m u u2, (c.send_request t m).1 = .ok u →
      ((c.send_request t m).2.1.send_request t m).1 = .ok u2 →
      ((c.send_request t m).2.1.send_request t m).2.1.state =
        (c.send_request t m).2.1.state) := by
  refine ⟨?_, ?_, ?_, ?_, ?_⟩
  · intro u u2 h1 h2
    exact ⟨idle_ok_state c t u h1, idle_ok_state _ t2 u2 h2⟩
  · intro u u2 h1 h2
    rw [search_ok_state _ t2 u2 h2, search_ok_state c t u h1]
  · intro n u u2 h1 h2
    rw [(register_ok_state _ t2 n u2 h2).1, (register_ok_state c t n u h1).1]
  · intro s s2 h1 h2
    obtain ⟨j, n, hpr, hdec, hs, hconn⟩ := get_state_ok_char c t s h1
    obtain ⟨j2, n2, hpr2, hdec2, hs2, hconn2⟩ := get_state_ok_char _ t s2 h2
    have hco : ((c.get_state t).2.1).get_parsed_with_id t "state" [] "" =
        c.get_parsed_with_id t "state" [] "" := by
      apply get_parsed_with_id_congr <;> rw [hconn]
    rw [hco, hpr] at hpr2
    injection hpr2 with hj
    subst hj
    rw [hdec] at hdec2
    injection hdec2 with hn
    subst hn
    rw [hconn2, hconn, hs2, hs]
  · intro m u u2 h1 h2
    obtain ⟨j, b, hpr, hdec, hconn⟩ := send_request_ok_char c t m u h1
    obtain ⟨j2, b2, hpr2, hdec2, hconn2⟩ := send_request_ok_char _ t m u2 h2
    have hco : ((c.send_request t m).2.1).post_parsed_with_id t "requests"
        [("send_to", toString m)] "" =
        c.post_parsed_with_id t "requests" [("send_to", toString m)] "" := by
      apply post_parsed_with_id_congr
      · rw [hconn]; cases b <;> rfl
      · rw [hconn]; cases b <;> rfl
    rw [hco, hpr] at hpr2
    injection hpr2 with hj
    subst hj
    rw [hdec] at hdec2
    injection hdec2 with hb
    subst hb
    rw [hconn2, hconn]
    cases b <;> rfl

/-- Transport answering a bare success for idle/search. -/
def tOkC9 : Transport := fun _ => .ok (.obj [("success", .null)])

/-- Witness for C9: two successful idles on the registered connection both
leave the state Idle, and a repeated get_state (same code 2) stores the same
state. -/
theorem C9_repeat_idempotent_witness :
    (connReg.idle tOkC9).2.1.state = State.Idle ∧
    ((connReg.idle tOkC9).2.1.idle tOkC9).2.1.state = State.Idle ∧
    ((connReg.get_state tState2C5).2.1.get_state tState2C5).2.1.state =
      (connReg.get_state tState2C5).2.1.state := by
  have h := C9_repeat_idempotent connReg tOkC9 tOkC9
  have hidle := h.1 () () rfl rfl
  have hgs := (C9_repeat_idempotent connReg tState2C5 tState2C5).2.2.2.1
    State.Searching State.Searching rfl rfl
  exact ⟨hidle.1, hidle.2, hgs⟩

/-! ## Claim C10: the stored nickname comes from the server response -/

/-- C10: after a successful register, `get_nickname` returns the nickname
taken from the response's `player.nickname` field — not the argument that was
passed to register.  When the two differ, the server's value wins. -/
theorem C10_nickname_from_server (c : Connection) (t : Transport)
    (arg nick : String) (id pid : Nat)
    (ht : ∀ r, t r = .ok (.obj [("success",
      .obj [("player", .obj [("nickname", .str nick), ("id", .num id),
                             ("player_id", .num pid)])])]))
    (hid : id < 18446744073709551616) (hpid : pid < 18446744073709551616) :
    (c.register t arg).1 = .ok () ∧
    ((c.register t arg).2.1).get_nickname = .ok nick := by
  have h := register_resp c t arg nick id pid ht hid hpid
  rw [h]
  exact ⟨rfl, rfl⟩

/-- Transport registering the client under the server-chosen nickname
"bob". -/
def tRegC10 : Transport := fun _ => .ok (.obj [("success", .obj [("player",
  .obj [("nickname", .str "bob"), ("id", .num 7), ("player_id", .num 42)])])])

/-- Witness for C10: registering with argument "alice" against a server that
answers nickname "bob" stores and returns "bob". -/
theorem C10_nickname_from_server_witness :
    (((Connection.new "http://h").register tRegC10 "alice").2.1).get_nickname =
      .ok "bob" ∧ ("bob" : String) ≠ "alice" := by
  have h := C10_nickname_from_server (Connection.new "http://h") tRegC10
    "alice" "bob" 7 42 (fun r => rfl) (by decide) (by decide)
  exact ⟨h.2, by decide⟩

end GameConn
